import Mathlib

/-
Verification of the spudsense_full Arduino sketches against their
natural-language specification.

Shallow embedding conventions:
* Arduino `long`/`int` arithmetic is modelled on `Int`; C++ `/` truncates
  toward zero, which is `Int.tdiv` (Lean's `/` on `Int` is Euclidean and
  does not match C++).  All argument values appearing in the sketches are
  far below the `long` overflow bound, so unbounded `Int` agrees with
  32-bit `long` on every computation modelled here.
* One iteration of a sketch's `loop()` is a function from the received
  input (a byte, or a line read by `readStringUntil`) and the persistent
  program state to the new state plus the externally visible effects.
* Effects are traces: `Serial.print` fragments, `digitalWrite` calls and
  blocking delays, in program order (the `Event` type below), or plain
  lists of printed fragments for sketches that never touch a pin.
* `analogRead` is modelled as an unconstrained environment function from
  pin number to raw reading.
* Floating-point only appears in these sketches as (a) values that are
  exactly representable small integers (`5.0`, the tenths produced by
  `mappedValue / 10.0`), modelled as `ℚ`, and (b) text rendering of such
  values, whose exact digit string is irrelevant to every claim treated
  here and is modelled by a fixed rendering function.
-/

/-- Arduino `map(x, in_min, in_max, out_min, out_max)` from WMath.cpp:
`(x - in_min) * (out_max - out_min) / (in_max - in_min) + out_min`,
computed in `long` arithmetic with C++ truncating division. -/
def arduinoMap (x inMin inMax outMin outMax : Int) : Int :=
  Int.tdiv ((x - inMin) * (outMax - outMin)) (inMax - inMin) + outMin

/-- Arduino `constrain(amt, low, high)`:
`(amt < low) ? low : ((amt > high) ? high : amt)`. -/
def constrain (amt low high : Int) : Int :=
  if amt < low then low else if high < amt then high else amt

/-- Whitespace recognised by Arduino `String::trim` (C `isspace`). -/
def isSpaceArd (c : Char) : Bool :=
  c == ' ' || c == '\t' || c == '\n' || c == '\x0b' || c == '\x0c' || c == '\r'

/-- Arduino `String::trim`: strip leading and trailing whitespace.
Lines are modelled as `List Char`. -/
def trimArd (s : List Char) : List Char :=
  ((s.dropWhile isSpaceArd).reverse.dropWhile isSpaceArd).reverse

/-- `String::charAt(0)`: Arduino returns the NUL character `'\x00'` when the
index is out of range (empty string). -/
def charAt0 (s : List Char) : Char := s.headD (Char.ofNat 0)

/-- Externally visible effects of a sketch, in program order. -/
inductive Event where
  /-- `digitalWrite(pin, level)`, `true` = HIGH, `false` = LOW. -/
  | setPin : Nat → Bool → Event
  /-- `delay(n)` in milliseconds. -/
  | delayMs : Nat → Event
  /-- `delayMicroseconds(n)`. -/
  | delayUs : Nat → Event
  /-- One `Serial.print`/`println` fragment (`println` includes `"\n"`). -/
  | printStr : String → Event
deriving DecidableEq, Repr

/-- Is the event a `digitalWrite`? -/
def Event.isSetPin : Event → Bool
  | Event.setPin _ _ => true
  | _ => false

/-- Total blocking `delay` time (milliseconds) in a trace; microsecond
delays and prints contribute nothing at millisecond granularity. -/
def sumDelays : List Event → Nat
  | [] => 0
  | Event.delayMs n :: es => n + sumDelays es
  | _ :: es => sumDelays es

/-- Number of step pulses (`digitalWrite(stepPin, HIGH)` events) in a trace. -/
def pulseCount (stepPin : Nat) (es : List Event) : Nat :=
  es.count (Event.setPin stepPin true)

namespace Part000
/- src/unnamed/part_000: DFRobot soil moisture sensor reader.
Persistent state: the global `selectedAnalogPinIndex : int` (initially -1).
Protocol: single characters; `'0'..'4'` select analog pin A0..A4. -/

def DRY_VALUE : Int := 767

def WET_VALUE : Int := 463

/-- `calculateMoisturePercentage`:
`map(rawReading, WET_VALUE, DRY_VALUE, 100, 0)` then `constrain(_, 0, 100)`. -/
def calculateMoisturePercentage (rawReading : Int) : Int :=
  constrain (arduinoMap rawReading WET_VALUE DRY_VALUE 100 0) 0 100

/-- Serial fragments printed for a successful reading of pin index `idx`
with raw ADC value `raw` (lines 31-40 of the sketch). -/
def readingBlock (idx raw : Int) : List String :=
  ["------------------------------------------\n",
   "Reading Sensor on Analog Pin A", toString idx, ":\n",
   "Raw ADC Value: ", toString raw, "\n",
   "Moisture Percentage: ", toString (calculateMoisturePercentage raw), "%\n",
   "------------------------------------------\n"]

/-- Serial fragments printed for an invalid input character (lines 43-45). -/
def invalidMsg (inputChar : Char) : List String :=
  ["Invalid input: '", String.singleton inputChar,
   "'. Please enter a number between 0 and 4.\n"]

/-- One iteration of `loop()` that consumed the byte `inputChar`.
Note the sketch assigns `selectedAnalogPinIndex = inputChar - '0'` BEFORE
the range check, so the global changes on every received byte.  Returns
the new `selectedAnalogPinIndex` and the printed fragments; the sketch
contains no `digitalWrite` at all. -/
def loopStep (env : Int → Int) (inputChar : Char) (_selectedAnalogPinIndex : Int) :
    Int × List String :=
  let idx : Int := (inputChar.toNat : Int) - 48
  if 0 ≤ idx ∧ idx ≤ 4 then
    (idx, readingBlock idx (env idx))
  else
    (idx, invalidMsg inputChar)

/-- Run `loop()` over a byte sequence: each received byte is dispatched
individually, one per iteration. -/
def run (env : Int → Int) : List Char → Int → Int × List String
  | [], s => (s, [])
  | c :: cs, s =>
    let r := loopStep env c s
    let rest := run env cs r.1
    (rest.1, r.2 ++ rest.2)

end Part000

namespace Soilsensor
/- src/CWSI_ver/soilsensor/soilsensor.ino: five-sensor reader, line protocol
with commands 'A'..'E'. -/

/-- `mapToMoisture`, split into its three stages exactly as in the source:
the raw `map(analogValue, 767, 463, 0, 100)` result, ... -/
def mappedRaw (analogValue : Int) : Int :=
  arduinoMap analogValue 767 463 0 100

/-- ... the value of `mappedValue` after the first clamp
`if (mappedValue < 0) mappedValue = 0;` ... -/
def afterLowClamp (analogValue : Int) : Int :=
  if mappedRaw analogValue < 0 then 0 else mappedRaw analogValue

/-- ... and after the second clamp `if (mappedValue > 1000) mappedValue = 1000;`. -/
def afterHighClamp (analogValue : Int) : Int :=
  if 1000 < afterLowClamp analogValue then 1000 else afterLowClamp analogValue

/-- `mapToMoisture(analogValue)`: the clamped value divided by `10.0`
(`return mappedValue / 10.0;`), as an exact rational. -/
def mapToMoisture (analogValue : Int) : ℚ :=
  (afterHighClamp analogValue : ℚ) / 10

/-- Arduino Uno analog pin numbers: A0..A4 are digital numbers 14..18.
The `switch (sensorID)` of `loop()` (lines 48-60). -/
def pinFor : Char → Option Nat
  | 'A' => some 14
  | 'B' => some 15
  | 'C' => some 16
  | 'D' => some 17
  | 'E' => some 18
  | _ => none

/-- Rendering of `Serial.println(value, 2)` for the rational values this
sketch prints.  The claims treated here depend only on this function being
a function of the value, never on the digit string itself. -/
def printFloat2 (q : ℚ) : String := toString q

/-- One iteration of `loop()` that consumed the line `line` (up to `'\n'`):
trim, take `charAt(0)`, dispatch; unknown commands echo the whole trimmed
line and a dummy `-1.0`.  Returns the printed fragments; no pin is written. -/
def loopStep (env : Nat → Int) (line : List Char) : List String :=
  let command := trimArd line
  let sensorID := charAt0 command
  match pinFor sensorID with
  | none =>
      ["ERROR: Unknown command received: ", String.mk command, "\n",
       "-1.0\n"]
  | some pinToRead =>
      let analogReading := env pinToRead
      let moisturePercent := mapToMoisture analogReading
      [printFloat2 moisturePercent, "\n",
       "-> Command ", String.singleton sensorID,
       ": Sent moisture value ", toString analogReading, "\n"]

end Soilsensor

namespace Part003
/- src/unnamed/part_003: pump controller.  Single-character protocol,
commands "ABCDE" mapped to pins {8,9,10,11,12}; active-LOW relays. -/

def PUMP_PINS : List Nat := [8, 9, 10, 11, 12]

def PUMP_COMMANDS : List Char := ['A', 'B', 'C', 'D', 'E']

/-- `durationMillis = (long)PUMP_DURATION * 1000` with `PUMP_DURATION = 5.0`:
the float truncates to the exact integer 5. -/
def durationMillis : Nat := 5 * 1000

/-- `activatePumpTimed(pinIndex, command)`: LOW, status print, blocking
`delay(durationMillis)`, HIGH, status print.  `Serial.print(PUMP_DURATION)`
renders the float 5.0 with Arduino's default two decimals. -/
def activatePumpTimed (pinIndex : Nat) (command : Char) : List Event :=
  [Event.setPin (PUMP_PINS.getD pinIndex 0) false,
   Event.printStr "Pump ", Event.printStr (String.singleton command),
   Event.printStr " ACTIVATED for ", Event.printStr "5.00",
   Event.printStr " seconds.\n",
   Event.delayMs durationMillis,
   Event.setPin (PUMP_PINS.getD pinIndex 0) true,
   Event.printStr "Pump ", Event.printStr (String.singleton command),
   Event.printStr " DEACTIVATED.\n"]

/-- One iteration of `loop()` that consumed the byte `command`: linear
search of `PUMP_COMMANDS`, activation on a hit, diagnostic otherwise.
This sketch has no persistent state besides the pin levels, and the
events record every pin write. -/
def loopStep (command : Char) : List Event :=
  match PUMP_COMMANDS.findIdx? (fun x => x = command) with
  | some sensorIndex => activatePumpTimed sensorIndex command
  | none =>
      [Event.printStr "Received invalid command: ",
       Event.printStr (String.singleton command), Event.printStr "\n"]

/-- Run `loop()` over a byte sequence, one byte per iteration. -/
def run : List Char → List Event
  | [] => []
  | c :: cs => loopStep c ++ run cs

end Part003

/-- One step pulse of `moveMotor`: STEP HIGH, wait, STEP LOW, wait
(the loop body shared verbatim by both stepper sketches). -/
def motorPulse (stepPin speedDelay : Nat) : List Event :=
  [Event.setPin stepPin true, Event.delayUs speedDelay,
   Event.setPin stepPin false, Event.delayUs speedDelay]

namespace Part001
/- src/unnamed/part_001: stepper variant with STEPS_PER_MOVE=600, MOVES=5,
TOTAL_STEPS = 600*5 - 100.  Line protocol, trigger command 'M'.
Persistent state: `int moveCount` (initially 0). -/

def STEP_PIN : Nat := 3

def DIR_PIN : Nat := 2

def STEPS_PER_MOVE : Int := 600

def MOVES : Int := 5

def TOTAL_STEPS : Int := STEPS_PER_MOVE * MOVES - 100

/-- `moveMotor(steps, clockwise, speedDelay)`: in this variant
`digitalWrite(DIR_PIN, clockwise ? LOW : HIGH)`, then `abs(steps)` pulses. -/
def moveMotor (steps : Int) (clockwise : Bool) (speedDelay : Nat) : List Event :=
  Event.setPin DIR_PIN (if clockwise then false else true) ::
    (List.replicate steps.natAbs (motorPulse STEP_PIN speedDelay)).flatten

/-- One iteration of `loop()` that consumed the line `command`.
Homing branch when `moveCount >= MOVES`; otherwise a forward move.  Note
this variant increments `moveCount` BEFORE printing `moveCount + 1`, so
the printed move number is entry value + 2. -/
def loopStep (command : List Char) (moveCount : Int) : Int × List Event :=
  let cmd := trimArd command
  let triggerCommand := charAt0 cmd
  if triggerCommand = 'M' then
    if MOVES ≤ moveCount then
      (0,
       [Event.printStr "\n--- HOMING CYCLE STARTING (6th 'M' received) ---\n",
        Event.printStr "Reversing", Event.printStr (toString TOTAL_STEPS),
        Event.printStr " steps...\n"]
       ++ moveMotor TOTAL_STEPS false 700
       ++ [Event.printStr "--- HOMING COMPLETE. Counter reset. ---\n\n"])
    else
      (moveCount + 1,
       [Event.printStr "Received 'M'. Executing move #",
        Event.printStr (toString (moveCount + 1 + 1)),
        Event.printStr " of ", Event.printStr (toString MOVES),
        Event.printStr ": ", Event.printStr (toString STEPS_PER_MOVE),
        Event.printStr " steps...\n"]
       ++ moveMotor STEPS_PER_MOVE true 700
       ++ [Event.printStr "Move complete.\n"])
  else
    (moveCount,
     [Event.printStr "Received unknown command: ",
      Event.printStr (String.mk cmd), Event.printStr "\n"])

/-- Run `loop()` over a sequence of received lines. -/
def run : List (List Char) → Int → Int × List Event
  | [], s => (s, [])
  | c :: cs, s =>
    let r := loopStep c s
    let rest := run cs r.1
    (rest.1, r.2 ++ rest.2)

/-- The value of `moveCount` after processing the given lines. -/
def runState (cmds : List (List Char)) (s : Int) : Int := (run cmds s).1

end Part001

namespace Part002
/- src/unnamed/part_002: stepper variant with STEPS_PER_MOVE=800,
HOMING_CYCLE=5, CUMULATIVE_STEPS = 800*5.  Line protocol, trigger 'M'.
Persistent state: `volatile int moveCount` (initially 0). -/

def STEP_PIN : Nat := 3

def DIR_PIN : Nat := 2

def STEPS_PER_MOVE : Int := 800

def HOMING_CYCLE : Int := 5

def CUMULATIVE_STEPS : Int := STEPS_PER_MOVE * HOMING_CYCLE

/-- `moveMotor(steps, clockwise, delay_micros)`: in this variant
`digitalWrite(DIR_PIN, clockwise ? HIGH : LOW)`, then `abs(steps)` pulses. -/
def moveMotor (steps : Int) (clockwise : Bool) (delayMicros : Nat) : List Event :=
  Event.setPin DIR_PIN (if clockwise then true else false) ::
    (List.replicate steps.natAbs (motorPulse STEP_PIN delayMicros)).flatten

/-- One iteration of `loop()` that consumed the line `command`.
Homing branch when `moveCount >= HOMING_CYCLE`; otherwise a forward move
(this variant prints `moveCount + 1` before incrementing). -/
def loopStep (command : List Char) (moveCount : Int) : Int × List Event :=
  let cmd := trimArd command
  let triggerCommand := charAt0 cmd
  if triggerCommand = 'M' then
    if HOMING_CYCLE ≤ moveCount then
      (0,
       [Event.printStr "\n--- HOMING CYCLE STARTING (6th 'M' received) ---\n",
        Event.printStr "Reversing cumulative ",
        Event.printStr (toString CUMULATIVE_STEPS),
        Event.printStr " steps...\n"]
       ++ moveMotor CUMULATIVE_STEPS false 800
       ++ [Event.printStr "--- HOMING COMPLETE. Counter reset. ---\n\n"])
    else
      (moveCount + 1,
       [Event.printStr "Received 'M'. Executing move #",
        Event.printStr (toString (moveCount + 1)),
        Event.printStr " of ", Event.printStr (toString HOMING_CYCLE),
        Event.printStr ": ", Event.printStr (toString STEPS_PER_MOVE),
        Event.printStr " steps...\n"]
       ++ moveMotor STEPS_PER_MOVE true 800
       ++ [Event.printStr "Move complete.\n"])
  else
    (moveCount,
     [Event.printStr "Received unknown command: ",
      Event.printStr (String.mk cmd), Event.printStr "\n"])

/-- Run `loop()` over a sequence of received lines. -/
def run : List (List Char) → Int → Int × List Event
  | [], s => (s, [])
  | c :: cs, s =>
    let r := loopStep c s
    let rest := run cs r.1
    (rest.1, r.2 ++ rest.2)

/-- The value of `moveCount` after processing the given lines. -/
def runState (cmds : List (List Char)) (s : Int) : Int := (run cmds s).1

end Part002

namespace Relay
/- src/CWSI_ver/relay/relay.ino: 5-channel relay cycler (no input). -/

def relayPins : List Nat := [4, 6, 8, 10, 12]

def activationTime : Nat := 1000

/-- The body of the `for` loop for one relay pin: activate (LOW), print,
`delay(activationTime)`, deactivate (HIGH), print, `delay(500)`. -/
def loopBody (currentPin : Nat) : List Event :=
  [Event.setPin currentPin false,
   Event.printStr "-> Activating Relay on Pin D",
   Event.printStr (toString currentPin),
   Event.printStr " (LOW = ON). Green LED should be lit.\n",
   Event.delayMs activationTime,
   Event.setPin currentPin true,
   Event.printStr "<- Deactivating Relay on Pin D",
   Event.printStr (toString currentPin),
   Event.printStr " (HIGH = OFF). Green LED should be off.\n",
   Event.delayMs 500]

/-- One full iteration of `loop()`: all five relays in turn, then the
cycle-complete message and `delay(3000)`. -/
def loopTrace : List Event :=
  (relayPins.map loopBody).flatten
    ++ [Event.printStr "--- Test Cycle Complete. Repeating in 3 seconds. ---\n",
        Event.delayMs 3000]

end Relay

namespace GetDataIR
/- src/old_iteration/getData_IR/getData_IR.ino: CSV emitter.  Serial
characters are modelled as char lists so that separator/field structure
is explicit.  The printed temperature values and the undeclared
identifier `sens` (in context, the moisture reading) are kept symbolic:
the claims depend only on the separators the sketch itself prints. -/

/-- The single header line printed at startup
(`Serial.println("Soil Moisture (%),Object Temp (C)")`). -/
def headerLine : List Char := "Soil Moisture (%),Object Temp (C)\n".toList

/-- The serial characters emitted by one triggered reading cycle
(lines 67-70): `Serial.print(sens); Serial.print(","); Serial.print(ambientTemp, 2);
Serial.println(objectTemp, 2);` — note there is NO comma between the two
temperature fields, and the moisture field comes first. -/
def cycleLine (sens ambientTemp objectTemp : List Char) : List Char :=
  sens ++ [','] ++ ambientTemp ++ (objectTemp ++ ['\n'])

end GetDataIR

/-- Decidable check used to sweep the nominal ADC range for the
`mapToMoisture` intermediate-value bound: the value of `mappedValue` at
the point where the upper clamp is tested lies in `[0, 252]`. -/
def moistureCheck (n : Nat) : Bool :=
  decide (0 ≤ Soilsensor.afterLowClamp (n : Int) ∧ Soilsensor.afterLowClamp (n : Int) ≤ 252)

/- ===================  Helper lemmas  =================== -/

lemma count_flatten_replicate {α : Type} [DecidableEq α] (n : Nat) (l : List α) (a : α) :
    ((List.replicate n l).flatten.count a) = n * l.count a := by
  induction n with
  | zero => simp
  | succ k ih =>
      simp [List.replicate_succ, List.count_append, ih]
      ring

lemma pulseCount_moveMotor_p1 (steps : Int) (cw : Bool) (d : Nat) :
    pulseCount Part001.STEP_PIN (Part001.moveMotor steps cw d) = steps.natAbs := by
  simp [pulseCount, Part001.moveMotor, List.count_cons, count_flatten_replicate,
    motorPulse, Part001.STEP_PIN, Part001.DIR_PIN, List.count_append]

lemma pulseCount_moveMotor_p2 (steps : Int) (cw : Bool) (d : Nat) :
    pulseCount Part002.STEP_PIN (Part002.moveMotor steps cw d) = steps.natAbs := by
  simp [pulseCount, Part002.moveMotor, List.count_cons, count_flatten_replicate,
    motorPulse, Part002.STEP_PIN, Part002.DIR_PIN, List.count_append]

lemma loopStep_homing_p1 (cmd : List Char) (s : Int)
    (h1 : charAt0 (trimArd cmd) = 'M') (h2 : Part001.MOVES ≤ s) :
    Part001.loopStep cmd s =
      (0,
       [Event.printStr "\n--- HOMING CYCLE STARTING (6th 'M' received) ---\n",
        Event.printStr "Reversing", Event.printStr (toString Part001.TOTAL_STEPS),
        Event.printStr " steps...\n"]
       ++ Part001.moveMotor Part001.TOTAL_STEPS false 700
       ++ [Event.printStr "--- HOMING COMPLETE. Counter reset. ---\n\n"]) := by
  simp only [Part001.loopStep, h1, h2, if_true, if_pos]

lemma loopStep_homing_p2 (cmd : List Char) (s : Int)
    (h1 : charAt0 (trimArd cmd) = 'M') (h2 : Part002.HOMING_CYCLE ≤ s) :
    Part002.loopStep cmd s =
      (0,
       [Event.printStr "\n--- HOMING CYCLE STARTING (6th 'M' received) ---\n",
        Event.printStr "Reversing cumulative ",
        Event.printStr (toString Part002.CUMULATIVE_STEPS),
        Event.printStr " steps...\n"]
       ++ Part002.moveMotor Part002.CUMULATIVE_STEPS false 800
       ++ [Event.printStr "--- HOMING COMPLETE. Counter reset. ---\n\n"]) := by
  simp only [Part002.loopStep, h1, h2, if_true, if_pos]

lemma loopStep_forward_p1 (cmd : List Char) (s : Int)
    (h1 : charAt0 (trimArd cmd) = 'M') (h2 : ¬ Part001.MOVES ≤ s) :
    Part001.loopStep cmd s =
      (s + 1,
       [Event.printStr "Received 'M'. Executing move #",
        Event.printStr (toString (s + 1 + 1)),
        Event.printStr " of ", Event.printStr (toString Part001.MOVES),
        Event.printStr ": ", Event.printStr (toString Part001.STEPS_PER_MOVE),
        Event.printStr " steps...\n"]
       ++ Part001.moveMotor Part001.STEPS_PER_MOVE true 700
       ++ [Event.printStr "Move complete.\n"]) := by
  simp only [Part001.loopStep, h1, h2, if_true, if_false, if_neg, if_pos]

lemma loopStep_forward_p2 (cmd : List Char) (s : Int)
    (h1 : charAt0 (trimArd cmd) = 'M') (h2 : ¬ Part002.HOMING_CYCLE ≤ s) :
    Part002.loopStep cmd s =
      (s + 1,
       [Event.printStr "Received 'M'. Executing move #",
        Event.printStr (toString (s + 1)),
        Event.printStr " of ", Event.printStr (toString Part002.HOMING_CYCLE),
        Event.printStr ": ", Event.printStr (toString Part002.STEPS_PER_MOVE),
        Event.printStr " steps...\n"]
       ++ Part002.moveMotor Part002.STEPS_PER_MOVE true 800
       ++ [Event.printStr "Move complete.\n"]) := by
  simp only [Part002.loopStep, h1, h2, if_true, if_false, if_neg, if_pos]

lemma p1_step_bounds (c : List Char) (s : Int) (h0 : 0 ≤ s) (h5 : s ≤ 5) :
    0 ≤ (Part001.loopStep c s).1 ∧ (Part001.loopStep c s).1 ≤ 5 := by
  simp only [Part001.loopStep, Part001.MOVES]
  split_ifs <;> simp <;> omega

lemma p2_step_bounds (c : List Char) (s : Int) (h0 : 0 ≤ s) (h5 : s ≤ 5) :
    0 ≤ (Part002.loopStep c s).1 ∧ (Part002.loopStep c s).1 ≤ 5 := by
  simp only [Part002.loopStep, Part002.HOMING_CYCLE]
  split_ifs <;> simp <;> omega

lemma p1_run_bounds (cmds : List (List Char)) (s : Int) (h0 : 0 ≤ s) (h5 : s ≤ 5) :
    0 ≤ Part001.runState cmds s ∧ Part001.runState cmds s ≤ 5 := by
  induction cmds generalizing s with
  | nil => simpa [Part001.runState, Part001.run] using ⟨h0, h5⟩
  | cons c cs ih =>
      have hb := p1_step_bounds c s h0 h5
      simpa [Part001.runState, Part001.run] using ih _ hb.1 hb.2

lemma p2_run_bounds (cmds : List (List Char)) (s : Int) (h0 : 0 ≤ s) (h5 : s ≤ 5) :
    0 ≤ Part002.runState cmds s ∧ Part002.runState cmds s ≤ 5 := by
  induction cmds generalizing s with
  | nil => simpa [Part002.runState, Part002.run] using ⟨h0, h5⟩
  | cons c cs ih =>
      have hb := p2_step_bounds c s h0 h5
      simpa [Part002.runState, Part002.run] using ih _ hb.1 hb.2

set_option maxRecDepth 8000 in
lemma moistureCheck_all : (List.range 1024).all moistureCheck = true := by decide

lemma soil_loopStep_firstChar (env : Nat → Int) (l1 l2 : List Char)
    (h : charAt0 (trimArd l1) = charAt0 (trimArd l2))
    (hv : Soilsensor.pinFor (charAt0 (trimArd l1)) ≠ none) :
    Soilsensor.loopStep env l1 = Soilsensor.loopStep env l2 := by
  rw [h] at hv
  simp only [Soilsensor.loopStep, h]
  cases hp : Soilsensor.pinFor (charAt0 (trimArd l2)) with
  | none => exact absurd hp hv
  | some p => simp [hp]

lemma p2_loopStep_firstChar (l1 l2 : List Char) (s : Int)
    (h : charAt0 (trimArd l1) = charAt0 (trimArd l2))
    (hM : charAt0 (trimArd l1) = 'M') :
    Part002.loopStep l1 s = Part002.loopStep l2 s := by
  simp only [Part002.loopStep, hM, h ▸ hM, if_true, if_pos]


/- ===================  Claim theorems  =================== -/

/-- Claim C1, counterexample: in the part_001 stepper variant the 6th 'M'
(received with `moveCount = 5`, reached after exactly 5 forward commands)
pulses the motor 2900 times in reverse, which is `TOTAL_STEPS =
STEPS_PER_MOVE * MOVES - 100` and NOT `step_count × N = 600 * 5 = 3000`
as the claim states for each variant. -/
theorem C1_counterexample :
    Part001.runState (List.replicate 5 ['M']) 0 = 5 ∧
    pulseCount Part001.STEP_PIN (Part001.loopStep ['M'] 5).2 = 2900 ∧
    (2900 : Int) ≠ Part001.STEPS_PER_MOVE * Part001.MOVES := by
  refine ⟨by decide, ?_, by decide⟩
  rw [loopStep_homing_p1 ['M'] 5 (by decide) (by decide)]
  simp [pulseCount, List.count_append]
  have h2 := pulseCount_moveMotor_p1 Part001.TOTAL_STEPS false 700
  simp [pulseCount] at h2
  rw [h2]
  decide

/-- Claim C1, amended: in each stepper variant, 5 forward 'M' commands
bring the counter from 0 to 5; each forward command pulses STEPS_PER_MOVE
steps with the clockwise direction level and increments the counter; the
6th 'M' pulses the motor in reverse (counter-clockwise direction level)
by `STEPS_PER_MOVE × HOMING_CYCLE = 4000` steps in part_002 but by
`STEPS_PER_MOVE × MOVES − 100 = 2900` steps in part_001, and resets the
counter to 0; the 7th command behaves identically to the 1st. -/
theorem C1_amended :
    Part002.runState (List.replicate 5 ['M']) 0 = 5 ∧
    (Part002.loopStep ['M'] 0).1 = 1 ∧
    pulseCount Part002.STEP_PIN (Part002.loopStep ['M'] 0).2 =
      Part002.STEPS_PER_MOVE.natAbs ∧
    Event.setPin Part002.DIR_PIN true ∈ (Part002.loopStep ['M'] 0).2 ∧
    (Part002.loopStep ['M'] 5).1 = 0 ∧
    pulseCount Part002.STEP_PIN (Part002.loopStep ['M'] 5).2 =
      (Part002.STEPS_PER_MOVE * Part002.HOMING_CYCLE).natAbs ∧
    Event.setPin Part002.DIR_PIN false ∈ (Part002.loopStep ['M'] 5).2 ∧
    Part002.loopStep ['M'] (Part002.runState (List.replicate 6 ['M']) 0) =
      Part002.loopStep ['M'] 0 ∧
    Part001.runState (List.replicate 5 ['M']) 0 = 5 ∧
    (Part001.loopStep ['M'] 0).1 = 1 ∧
    pulseCount Part001.STEP_PIN (Part001.loopStep ['M'] 0).2 =
      Part001.STEPS_PER_MOVE.natAbs ∧
    Event.setPin Part001.DIR_PIN false ∈ (Part001.loopStep ['M'] 0).2 ∧
    (Part001.loopStep ['M'] 5).1 = 0 ∧
    pulseCount Part001.STEP_PIN (Part001.loopStep ['M'] 5).2 =
      (Part001.STEPS_PER_MOVE * Part001.MOVES - 100).natAbs ∧
    Event.setPin Part001.DIR_PIN true ∈ (Part001.loopStep ['M'] 5).2 ∧
    Part001.loopStep ['M'] (Part001.runState (List.replicate 6 ['M']) 0) =
      Part001.loopStep ['M'] 0 := by
  refine ⟨by decide, by decide, ?_, ?_, by decide, ?_, ?_, ?_,
          by decide, by decide, ?_, ?_, by decide, ?_, ?_, ?_⟩
  · rw [loopStep_forward_p2 ['M'] 0 (by decide) (by decide)]
    simp [pulseCount, List.count_append]
    have h2 := pulseCount_moveMotor_p2 Part002.STEPS_PER_MOVE true 800
    simp [pulseCount] at h2
    rw [h2]
  · rw [loopStep_forward_p2 ['M'] 0 (by decide) (by decide)]
    simp [Part002.moveMotor]
  · rw [loopStep_homing_p2 ['M'] 5 (by decide) (by decide)]
    simp [pulseCount, List.count_append]
    have h2 := pulseCount_moveMotor_p2 Part002.CUMULATIVE_STEPS false 800
    simp [pulseCount] at h2
    rw [h2]
    decide
  · rw [loopStep_homing_p2 ['M'] 5 (by decide) (by decide)]
    simp [Part002.moveMotor]
  · rw [show Part002.runState (List.replicate 6 ['M']) 0 = 0 from by decide]
  · rw [loopStep_forward_p1 ['M'] 0 (by decide) (by decide)]
    simp [pulseCount, List.count_append]
    have h2 := pulseCount_moveMotor_p1 Part001.STEPS_PER_MOVE true 700
    simp [pulseCount] at h2
    rw [h2]
  · rw [loopStep_forward_p1 ['M'] 0 (by decide) (by decide)]
    simp [Part001.moveMotor]
  · rw [loopStep_homing_p1 ['M'] 5 (by decide) (by decide)]
    simp [pulseCount, List.count_append]
    have h2 := pulseCount_moveMotor_p1 Part001.TOTAL_STEPS false 700
    simp [pulseCount] at h2
    rw [h2]
    decide
  · rw [loopStep_homing_p1 ['M'] 5 (by decide) (by decide)]
    simp [Part001.moveMotor]
  · rw [show Part001.runState (List.replicate 6 ['M']) 0 = 0 from by decide]

/-- Claim C2: evaluation of both converters at the three calibration
points.  The part_000 converter (`calculateMoisturePercentage`) maps
463 → 100, 767 → 0 and 615 → 50 exactly as the claim states, but the
soilsensor variant (`mapToMoisture`) returns 10.0, 0.0 and 5.0 there:
its `map` call targets 0..100 and the result is then divided by 10.0,
contradicting the sketch's own comments (a percentage "0.0 to 100.0",
"e.g. 75.3") and its clamp bound of 1000, which call for a 0..1000 map
target.  The code, not the claim, is at fault. -/
theorem C2_eval :
    Part000.calculateMoisturePercentage 463 = 100 ∧
    Part000.calculateMoisturePercentage 767 = 0 ∧
    Part000.calculateMoisturePercentage 615 = 50 ∧
    Soilsensor.mapToMoisture 463 = 10 ∧
    Soilsensor.mapToMoisture 767 = 0 ∧
    Soilsensor.mapToMoisture 615 = 5 := by
  refine ⟨by decide, by decide, by decide, ?_, ?_, ?_⟩
  · unfold Soilsensor.mapToMoisture
    rw [show Soilsensor.afterHighClamp 463 = 100 from by decide]
    norm_num
  · unfold Soilsensor.mapToMoisture
    rw [show Soilsensor.afterHighClamp 767 = 0 from by decide]
    norm_num
  · unfold Soilsensor.mapToMoisture
    rw [show Soilsensor.afterHighClamp 615 = 50 from by decide]
    norm_num

/-- Claim C3: for every raw integer reading, the part_000 converter
returns a value in [0, 100] (via `constrain`), and the soilsensor
converter returns a rational in [0, 100] (via the [0, 1000] clamp
followed by division by 10). -/
theorem C3_range : ∀ r : Int,
    (0 ≤ Part000.calculateMoisturePercentage r ∧
     Part000.calculateMoisturePercentage r ≤ 100) ∧
    (0 ≤ Soilsensor.mapToMoisture r ∧ Soilsensor.mapToMoisture r ≤ 100) := by
  intro r
  constructor
  · unfold Part000.calculateMoisturePercentage constrain
    split_ifs <;> omega
  · have hb : 0 ≤ Soilsensor.afterHighClamp r ∧ Soilsensor.afterHighClamp r ≤ 1000 := by
      unfold Soilsensor.afterHighClamp Soilsensor.afterLowClamp
      split_ifs <;> omega
    constructor
    · unfold Soilsensor.mapToMoisture
      apply div_nonneg _ (by norm_num)
      exact_mod_cast hb.1
    · unfold Soilsensor.mapToMoisture
      rw [div_le_iff₀ (by norm_num : (0:ℚ) < 10)]
      have : (Soilsensor.afterHighClamp r : ℚ) ≤ 1000 := by exact_mod_cast hb.2
      linarith

/-- Claim C4, counterexample: part_000 receives the invalid byte 'x' with
`selectedAnalogPinIndex = -1`; it prints the diagnostic but also
overwrites the persistent global `selectedAnalogPinIndex` with
`'x' - '0' = 72`, so program state does NOT stay unchanged. -/
theorem C4_counterexample :
    Part000.loopStep (fun _ => 0) 'x' (-1) = (72, Part000.invalidMsg 'x') ∧
    (72 : Int) ≠ -1 := by decide

/-- Claim C4, amended: for every command outside the valid set, both
dispatchers print a diagnostic, write no digital output pin and perform
no action; part_003 leaves all state unchanged, but part_000 overwrites
its persistent `selectedAnalogPinIndex` with `inputChar - '0'` even for
invalid input, because the assignment precedes the range check. -/
theorem C4_fixed :
    (∀ (env : Int → Int) (c : Char) (s : Int),
       ¬ (0 ≤ (c.toNat : Int) - 48 ∧ (c.toNat : Int) - 48 ≤ 4) →
       (Part000.loopStep env c s).2 = Part000.invalidMsg c ∧
       (Part000.loopStep env c s).1 = (c.toNat : Int) - 48) ∧
    (∀ c : Char, Part003.PUMP_COMMANDS.findIdx? (fun x => x = c) = none →
       Part003.loopStep c =
         [Event.printStr "Received invalid command: ",
          Event.printStr (String.singleton c), Event.printStr "\n"] ∧
       (Part003.loopStep c).filter Event.isSetPin = [] ∧
       sumDelays (Part003.loopStep c) = 0) := by
  constructor
  · intro env c s h
    unfold Part000.loopStep
    rw [if_neg h]
    exact ⟨rfl, rfl⟩
  · intro c h
    simp [Part003.loopStep, h, Event.isSetPin, sumDelays]

/-- Claim C4, witness: the amended theorem applied to the concrete
invalid bytes 'x' (part_000, in state -1) and 'z' (part_003). -/
theorem C4_fixed_witness :
    ((Part000.loopStep (fun _ => 0) 'x' (-1)).2 = Part000.invalidMsg 'x' ∧
     (Part000.loopStep (fun _ => 0) 'x' (-1)).1 = ('x'.toNat : Int) - 48) ∧
    (Part003.loopStep 'z' =
       [Event.printStr "Received invalid command: ",
        Event.printStr (String.singleton 'z'), Event.printStr "\n"] ∧
     (Part003.loopStep 'z').filter Event.isSetPin = [] ∧
     sumDelays (Part003.loopStep 'z') = 0) :=
  ⟨C4_fixed.1 (fun _ => 0) 'x' (-1) (by decide), C4_fixed.2 'z' (by decide)⟩

/-- Claim C5, counterexample: in both stepper variants the state reached
after exactly 5 forward commands — a state between command processings —
is `moveCount = 5`, which violates the claimed invariant
`moveCount < homing_cycle = 5`. -/
theorem C5_counterexample :
    Part002.runState (List.replicate 5 ['M']) 0 = 5 ∧
    ¬ (Part002.runState (List.replicate 5 ['M']) 0 < Part002.HOMING_CYCLE) ∧
    Part001.runState (List.replicate 5 ['M']) 0 = 5 ∧
    ¬ (Part001.runState (List.replicate 5 ['M']) 0 < Part001.MOVES) := by decide

/-- Claim C5, amended: in every state reachable from the initial state
between command processings, `0 ≤ moveCount ≤ homing_cycle` holds (the
bound is inclusive: the counter equals N after the Nth forward move and
stays there until the homing command arrives). -/
theorem C5_invariant : ∀ cmds : List (List Char),
    (0 ≤ Part001.runState cmds 0 ∧ Part001.runState cmds 0 ≤ Part001.MOVES) ∧
    (0 ≤ Part002.runState cmds 0 ∧ Part002.runState cmds 0 ≤ Part002.HOMING_CYCLE) := by
  intro cmds
  exact ⟨p1_run_bounds cmds 0 (by decide) (by decide),
         p2_run_bounds cmds 0 (by decide) (by decide)⟩

/-- Claim C6, counterexample: the lines "Z1" and "Z2" have the same first
character after trimming, yet the soilsensor sketch produces different
serial output for them, because the unknown-command diagnostic echoes the
entire trimmed line (`Serial.println(command)`), not just its first
character. -/
theorem C6_counterexample :
    charAt0 (trimArd "Z1".toList) = charAt0 (trimArd "Z2".toList) ∧
    Soilsensor.loopStep (fun _ => 0) "Z1".toList ≠
      Soilsensor.loopStep (fun _ => 0) "Z2".toList ∧
    Part002.loopStep "Z1".toList 0 ≠ Part002.loopStep "Z2".toList 0 := by decide

/-- Claim C6, amended: two input lines whose first character after
trimming is the same and is a RECOGNIZED command cause identical behavior
and identical serial output (the remainder of the line is ignored); for
unrecognized commands the diagnostic echoes the whole trimmed line, so
outputs can differ. -/
theorem C6_fixed :
    (∀ (env : Nat → Int) (l1 l2 : List Char),
       charAt0 (trimArd l1) = charAt0 (trimArd l2) →
       Soilsensor.pinFor (charAt0 (trimArd l1)) ≠ none →
       Soilsensor.loopStep env l1 = Soilsensor.loopStep env l2) ∧
    (∀ (l1 l2 : List Char) (s : Int),
       charAt0 (trimArd l1) = charAt0 (trimArd l2) →
       charAt0 (trimArd l1) = 'M' →
       Part002.loopStep l1 s = Part002.loopStep l2 s) :=
  ⟨soil_loopStep_firstChar, p2_loopStep_firstChar⟩

/-- Claim C6, witness: the amended theorem applied to concrete lines —
"A trailing junk" versus "  A" for the soilsensor, and "M 99" versus "M"
for the part_002 stepper. -/
theorem C6_fixed_witness :
    Soilsensor.loopStep (fun _ => 7) "A trailing junk".toList =
      Soilsensor.loopStep (fun _ => 7) "  A".toList ∧
    Part002.loopStep "M 99".toList 3 = Part002.loopStep "M".toList 3 :=
  ⟨C6_fixed.1 (fun _ => 7) _ _ (by decide) (by decide),
   C6_fixed.2 _ _ 3 (by decide) (by decide)⟩

/-- Claim C7: every relay/pump activation is a trace that writes the pin
LOW, then (with no other pin write in between) performs a blocking sleep
totalling exactly the activation time, then writes the pin HIGH; the
total blocking time of the activation is at least the activation time
(5000 ms for part_003's `activatePumpTimed`, `activationTime = 1000` ms
for each relay in relay.ino's cycle). -/
theorem C7_pulse :
    (∀ (pinIndex : Nat) (command : Char),
       ∃ mid post,
         Part003.activatePumpTimed pinIndex command =
           Event.setPin (Part003.PUMP_PINS.getD pinIndex 0) false ::
             (mid ++ Event.setPin (Part003.PUMP_PINS.getD pinIndex 0) true :: post) ∧
         (∀ e ∈ mid, e.isSetPin = false) ∧
         Event.delayMs Part003.durationMillis ∈ mid ∧
         sumDelays mid = Part003.durationMillis ∧
         Part003.durationMillis ≤ sumDelays (Part003.activatePumpTimed pinIndex command)) ∧
    (∀ currentPin : Nat,
       ∃ mid post,
         Relay.loopBody currentPin =
           Event.setPin currentPin false ::
             (mid ++ Event.setPin currentPin true :: post) ∧
         (∀ e ∈ mid, e.isSetPin = false) ∧
         Event.delayMs Relay.activationTime ∈ mid ∧
         sumDelays mid = Relay.activationTime ∧
         Relay.activationTime ≤ sumDelays (Relay.loopBody currentPin)) := by
  constructor
  · intro pinIndex command
    refine ⟨[Event.printStr "Pump ", Event.printStr (String.singleton command),
             Event.printStr " ACTIVATED for ", Event.printStr "5.00",
             Event.printStr " seconds.\n", Event.delayMs Part003.durationMillis],
            [Event.printStr "Pump ", Event.printStr (String.singleton command),
             Event.printStr " DEACTIVATED.\n"], rfl, ?_, ?_, ?_, ?_⟩
    · intro e he
      simp only [List.mem_cons, List.not_mem_nil, or_false] at he
      rcases he with rfl | rfl | rfl | rfl | rfl | rfl <;> rfl
    · simp
    · simp [sumDelays]
    · simp [Part003.activatePumpTimed, sumDelays]
  · intro currentPin
    refine ⟨[Event.printStr "-> Activating Relay on Pin D",
             Event.printStr (toString currentPin),
             Event.printStr " (LOW = ON). Green LED should be lit.\n",
             Event.delayMs Relay.activationTime],
            [Event.printStr "<- Deactivating Relay on Pin D",
             Event.printStr (toString currentPin),
             Event.printStr " (HIGH = OFF). Green LED should be off.\n",
             Event.delayMs 500], rfl, ?_, ?_, ?_, ?_⟩
    · intro e he
      simp only [List.mem_cons, List.not_mem_nil, or_false] at he
      rcases he with rfl | rfl | rfl | rfl <;> rfl
    · simp
    · simp [sumDelays]
    · simp [Relay.loopBody, sumDelays, Relay.activationTime]

/-- Claim C8, counterexample: with concrete rendered fields (moisture
"50", ambient "25.00", object "30.00") the data line emitted by
getData_IR's reading cycle is NOT the claimed
`ambient_temp,object_temp,moisture` CSV line, and it contains exactly one
comma (the two temperature fields are printed with no separator between
them and the moisture field comes first). -/
theorem C8_counterexample :
    GetDataIR.cycleLine "50".toList "25.00".toList "30.00".toList ≠
      "25.00".toList ++ [','] ++ "30.00".toList ++ [','] ++ "50".toList ++ ['\n'] ∧
    (GetDataIR.cycleLine "50".toList "25.00".toList "30.00".toList).count ',' = 1 := by
  decide

/-- Claim C8, amended: each triggered reading cycle of getData_IR emits
exactly one data line (one trailing newline when the fields contain
none), whose first comma-separated field is the moisture/`sens` value
and whose remainder is the ambient and object temperatures concatenated
with no separator; when the fields are comma-free the line has exactly
one comma; the startup header is a single line. -/
theorem C8_fixed : ∀ m a o : List Char,
    (∃ rest, GetDataIR.cycleLine m a o = m ++ ',' :: rest ∧ rest = a ++ (o ++ ['\n'])) ∧
    ((m.count ',' = 0 ∧ a.count ',' = 0 ∧ o.count ',' = 0) →
       (GetDataIR.cycleLine m a o).count ',' = 1) ∧
    ((m.count '\n' = 0 ∧ a.count '\n' = 0 ∧ o.count '\n' = 0) →
       (GetDataIR.cycleLine m a o).count '\n' = 1) ∧
    GetDataIR.headerLine.count '\n' = 1 := by
  intro m a o
  refine ⟨⟨a ++ (o ++ ['\n']), ?_, rfl⟩, ?_, ?_, by decide⟩
  · simp [GetDataIR.cycleLine]
  · intro h
    simp [GetDataIR.cycleLine, List.count_append, h.1, h.2.1, h.2.2]
  · intro h
    simp [GetDataIR.cycleLine, List.count_append, h.1, h.2.1, h.2.2]

/-- Claim C8, witness: the amended theorem's comma and newline counts at
the concrete fields "50", "25.00", "30.00". -/
theorem C8_fixed_witness :
    (GetDataIR.cycleLine "50".toList "25.00".toList "30.00".toList).count ',' = 1 ∧
    (GetDataIR.cycleLine "50".toList "25.00".toList "30.00".toList).count '\n' = 1 :=
  ⟨(C8_fixed "50".toList "25.00".toList "30.00".toList).2.1 (by decide),
   (C8_fixed "50".toList "25.00".toList "30.00".toList).2.2.1 (by decide)⟩

/-- Claim C9: for every analog reading in the nominal ADC range
[0, 1023], the raw `map` output is at most 252, the value of
`mappedValue` at the point where the upper clamp is tested (i.e. after
the lower clamp) lies in [0, 252], the upper clamp branch
`mappedValue > 1000` is never taken, and the returned percentage never
exceeds 25.2. -/
theorem C9_bounds (r : Int) (h0 : 0 ≤ r) (h1 : r ≤ 1023) :
    Soilsensor.mappedRaw r ≤ 252 ∧
    (0 ≤ Soilsensor.afterLowClamp r ∧ Soilsensor.afterLowClamp r ≤ 252) ∧
    ¬ (1000 < Soilsensor.afterLowClamp r) ∧
    Soilsensor.afterHighClamp r = Soilsensor.afterLowClamp r ∧
    Soilsensor.mapToMoisture r ≤ 252 / 10 := by
  have hn : r.toNat ∈ List.range 1024 := by
    simp only [List.mem_range]
    omega
  have hchk := List.all_eq_true.mp moistureCheck_all _ hn
  have hcast : ((r.toNat : Int)) = r := Int.toNat_of_nonneg h0
  have hb : 0 ≤ Soilsensor.afterLowClamp r ∧ Soilsensor.afterLowClamp r ≤ 252 := by
    have := of_decide_eq_true hchk
    rwa [hcast] at this
  have hraw : Soilsensor.mappedRaw r ≤ 252 := by
    have := hb.2
    unfold Soilsensor.afterLowClamp at this
    split_ifs at this <;> omega
  have hhigh : Soilsensor.afterHighClamp r = Soilsensor.afterLowClamp r := by
    unfold Soilsensor.afterHighClamp
    rw [if_neg (by omega)]
  refine ⟨hraw, hb, by omega, hhigh, ?_⟩
  unfold Soilsensor.mapToMoisture
  rw [hhigh, div_le_div_iff_of_pos_right (by norm_num : (0:ℚ) < 10)]
  exact_mod_cast hb.2

/-- Claim C9, witness: the bounds theorem applied at the concrete reading
512. -/
theorem C9_bounds_witness :
    (0 : Int) ≤ 512 ∧ (512 : Int) ≤ 1023 ∧
    (Soilsensor.mappedRaw 512 ≤ 252 ∧
     (0 ≤ Soilsensor.afterLowClamp 512 ∧ Soilsensor.afterLowClamp 512 ≤ 252) ∧
     ¬ (1000 < Soilsensor.afterLowClamp 512) ∧
     Soilsensor.afterHighClamp 512 = Soilsensor.afterLowClamp 512 ∧
     Soilsensor.mapToMoisture 512 ≤ 252 / 10) :=
  ⟨by decide, by decide, C9_bounds 512 (by decide) (by decide)⟩

/-- Claim C10: the single-character protocols dispatch each received byte
individually: sending "2\n" to the part_000 sensor reader yields one
sensor-reading block for pin 2 followed by one invalid-input diagnostic
for the newline byte, and sending "A\n" to the part_003 pump controller
yields one pump activation followed by one invalid-command diagnostic
for the newline byte. -/
theorem C10_dispatch : ∀ env : Int → Int,
    ((Part000.run env ['2'] (-1)).2 = Part000.readingBlock 2 (env 2) ∧
     (Part000.run env ['2', '\n'] (-1)).2 =
       (Part000.run env ['2'] (-1)).2 ++ Part000.invalidMsg '\n') ∧
    Part003.run ['A', '\n'] =
      Part003.activatePumpTimed 0 'A' ++
        [Event.printStr "Received invalid command: ",
         Event.printStr (String.singleton '\n'), Event.printStr "\n"] := by
  intro env
  refine ⟨⟨?_, ?_⟩, ?_⟩ <;> rfl
